import Mathlib

/-!
Shallow embedding of `base/base_model.py` (class `BaseModel`).

The file models the lifecycle wrapper faithfully:

* `ModeKeys` embeds the inner `BaseModel.ModeKeys` class with its four string
  constants.
* Graph construction (`__init__` / `build_model`) is embedded as explicit
  state passing over `TFState`: a stack of default graphs (`graph.as_default()`
  pushes, leaving the scope pops, `tf.get_default_graph()` reads the top) and
  a trace of created framework ops, each tagged with the graph that was the
  default when it was created.  The subclass hook `_init_graph` is a parameter
  of type `TFState → Except PyErr TFState`; the base-class implementation
  `BaseModel.init_graph` raises `NotImplementedError`.
* Checkpoint I/O (`load` / `save`) is embedded over an explicit session
  (variable values) and checkpoint store (directory → list of checkpoints in
  save order).  The external framework calls `tf.train.latest_checkpoint`,
  `Saver.save` and `Saver.restore` are modelled as the documented directory
  semantics: `latest_checkpoint` returns the most recently saved checkpoint of
  the directory, `save` appends a checkpoint holding all current variable
  values tagged with the evaluated global-step value, and `restore` replaces
  all saver-tracked variable values wholesale (all-or-nothing).
* Python exceptions (`NotImplementedError`, `assert`) are embedded with
  `Except PyErr`.
-/

/-- `BaseModel.ModeKeys`: standard names for model modes. -/
inductive ModeKeys
  | TRAIN
  | EVAL
  | PREDICT
  | RETRAIN
deriving DecidableEq, Repr

/-- The string value of each mode constant, as in the Python class body
(`TRAIN = 'train'`, `EVAL = 'eval'`, `PREDICT = 'infer'`, `RETRAIN = 'retrain'`). -/
def ModeKeys.value : ModeKeys → String
  | .TRAIN => "train"
  | .EVAL => "eval"
  | .PREDICT => "infer"
  | .RETRAIN => "retrain"

/-- Python exceptions that the embedded code can raise. -/
inductive PyErr
  | notImplementedError
  | assertionError (msg : String)
deriving DecidableEq, Repr

/-- The kinds of framework ops `BaseModel` creates while building the graph.
`custom` stands for whatever ops a subclass hook creates. -/
inductive OpKind
  | tfVariable (name : String) (trainable : Bool) (initialValue : Int)
  | saver
  | globalVariablesInitializer
  | localVariablesInitializer
  | group (members : List Nat)
  | custom (tag : String)
deriving DecidableEq, Repr

/-- A created framework op: the graph (by id) that was the default graph at
creation time, and what the op is. -/
structure Op where
  graph : Nat
  kind : OpKind
deriving DecidableEq, Repr

/-- The ambient framework state during graph construction: the stack of
default graphs (the process-wide default graph at the bottom) and the trace of
ops created so far, in creation order.  An op's id is its index in `ops`. -/
structure TFState where
  defaultStack : List Nat
  ops : List Op
deriving DecidableEq, Repr

/-- `tf.get_default_graph()`: the top of the default-graph stack. -/
def TFState.getDefaultGraph (s : TFState) : Nat :=
  s.defaultStack.headD 0

/-- Entering `with g.as_default():`. -/
def TFState.pushDefault (s : TFState) (g : Nat) : TFState :=
  { s with defaultStack := g :: s.defaultStack }

/-- Leaving the `with ... as_default():` scope. -/
def TFState.popDefault (s : TFState) : TFState :=
  { s with defaultStack := s.defaultStack.tail }

/-- Create one framework op in the current default graph; returns its id. -/
def TFState.mkOp (s : TFState) (k : OpKind) : Nat × TFState :=
  (s.ops.length, { s with ops := s.ops ++ [⟨s.getDefaultGraph, k⟩] })

/-- The configuration object; the only field the base class reads is
`ckpt_dir` (absent is Python's `None`). -/
structure Config where
  ckpt_dir : Option String
deriving DecidableEq, Repr

/-- A session's state: the values of the saver-tracked variables, by name. -/
structure Session where
  vars : List (String × Int)
deriving DecidableEq, Repr

/-- The session's value of the `global_step` variable created by
`_init_global_step` (evaluated by `Saver.save` when a variable is passed as
the `global_step` argument). -/
def Session.globalStepValue (sess : Session) : Int :=
  (sess.vars.lookup "global_step").getD 0

/-- One serialized checkpoint: the tagging step and all variable values. -/
structure Checkpoint where
  step : Int
  vars : List (String × Int)
deriving DecidableEq, Repr

/-- The filesystem's checkpoint state: directory → checkpoints in save order. -/
abbrev CkptStore := List (String × List Checkpoint)

/-- `tf.train.latest_checkpoint(ckpt_dir)`: the most recently saved
checkpoint of the directory, if any. -/
def latest_checkpoint (store : CkptStore) (ckpt_dir : String) : Option Checkpoint :=
  match store.lookup ckpt_dir with
  | none => none
  | some ckpts => ckpts.getLast?

/-- `Saver.save`: append a checkpoint to the directory's history. -/
def saverSave (store : CkptStore) (ckpt_dir : String) (c : Checkpoint) : CkptStore :=
  match store with
  | [] => [(ckpt_dir, [c])]
  | (d, cs) :: rest =>
    if d = ckpt_dir then (d, cs ++ [c]) :: rest else (d, cs) :: saverSave rest ckpt_dir c

/-- The model object: configuration, its graph, the ids of the ops the
constructor created, and the mode flag. -/
structure BaseModel where
  config : Config
  graph : Nat
  global_step : Nat
  saver : Nat
  init_op : Nat
  mode : ModeKeys
deriving DecidableEq, Repr

/-- The checkpoint-directory resolution shared by `load` and `save`:

    if ckpt_dir is None:
        ckpt_dir = self.config.ckpt_dir
        assert ckpt_dir is not None, "`ckpt_dir` is None!"
-/
def resolveCkptDir (config : Config) (ckpt_dir : Option String) : Except PyErr String :=
  match ckpt_dir with
  | some d => Except.ok d
  | none =>
    match config.ckpt_dir with
    | some d => Except.ok d
    | none => Except.error (PyErr.assertionError "`ckpt_dir` is None!")

/-- `BaseModel._init_graph` as the base class defines it: raises
`NotImplementedError`.  (The leading underscore of the Python name is
dropped.) -/
def BaseModel.init_graph (s : TFState) : Except PyErr TFState :=
  Except.error PyErr.notImplementedError

/-- `BaseModel.train(self, sess, dataset, *args, **kwargs)`: raises
`NotImplementedError`. -/
def BaseModel.train (m : BaseModel) (sess : Session) (dataset : List (Int × Int)) :
    Except PyErr Unit :=
  Except.error PyErr.notImplementedError

/-- `BaseModel.evaluate(self, sess, dataset, *args, **kwargs)`: raises
`NotImplementedError`. -/
def BaseModel.evaluate (m : BaseModel) (sess : Session) (dataset : List (Int × Int)) :
    Except PyErr Unit :=
  Except.error PyErr.notImplementedError

/-- `BaseModel.predict(self, sess, dataset, *args, **kwargs)`: raises
`NotImplementedError`. -/
def BaseModel.predict (m : BaseModel) (sess : Session) (dataset : List Int) :
    Except PyErr Unit :=
  Except.error PyErr.notImplementedError

/-- `BaseModel.build_model(self)`, parameterized by the `_init_graph` hook:

    with self.graph.as_default():
        self._init_global_step()   # tf.Variable(0, trainable=False, name='global_step')
        self._init_graph()
        self._init_saver()         # tf.train.Saver(...)

Returns the ids of the global-step variable and of the saver, with the state
after the scope is left. -/
def BaseModel.build_model (hook : TFState → Except PyErr TFState) (graph : Nat)
    (s : TFState) : Except PyErr (Nat × Nat × TFState) :=
  let s1 := s.pushDefault graph
  let p := s1.mkOp (OpKind.tfVariable "global_step" false 0)
  match hook p.2 with
  | Except.error e => Except.error e
  | Except.ok s3 =>
    let q := s3.mkOp OpKind.saver
    Except.ok (p.1, q.1, q.2.popDefault)

/-- `BaseModel.__init__(self, config, graph=None)`, parameterized by the
`_init_graph` hook:

    self.config = config
    if graph is None: self.graph = tf.get_default_graph() else: self.graph = graph
    self.build_model()
    self.init_op = tf.group(tf.global_variables_initializer(),
                            tf.local_variables_initializer())
    self.mode = self.ModeKeys.TRAIN

Note the `tf.group(...)` line runs after `build_model` has returned, i.e.
outside the `with self.graph.as_default():` scope, so its three ops are
created in the ambient default graph. -/
def BaseModel.new (hook : TFState → Except PyErr TFState) (config : Config)
    (graph : Option Nat) (s : TFState) : Except PyErr (BaseModel × TFState) :=
  let g := graph.getD s.getDefaultGraph
  match BaseModel.build_model hook g s with
  | Except.error e => Except.error e
  | Except.ok (gs, sv, s1) =>
    let a := s1.mkOp OpKind.globalVariablesInitializer
    let b := a.2.mkOp OpKind.localVariablesInitializer
    let c := b.2.mkOp (OpKind.group [a.1, b.1])
    Except.ok
      ({ config := config, graph := g, global_step := gs, saver := sv,
         init_op := c.1, mode := ModeKeys.TRAIN }, c.2)

/-- `BaseModel.load(self, sess, ckpt_dir=None)`:

    if ckpt_dir is None:
        ckpt_dir = self.config.ckpt_dir
        assert ckpt_dir is not None, "`ckpt_dir` is None!"
    latest_ckpt = tf.train.latest_checkpoint(ckpt_dir)
    if latest_ckpt:
        self.saver.restore(sess, latest_ckpt)
        self.mode = self.ModeKeys.RETRAIN
    else:
        logger.info("No model checkpoint")

Returns the (possibly updated) model and session. -/
def BaseModel.load (m : BaseModel) (sess : Session) (store : CkptStore)
    (ckpt_dir : Option String) : Except PyErr (BaseModel × Session) :=
  match resolveCkptDir m.config ckpt_dir with
  | Except.error e => Except.error e
  | Except.ok dir =>
    match latest_checkpoint store dir with
    | some ckpt =>
      Except.ok ({ m with mode := ModeKeys.RETRAIN }, { sess with vars := ckpt.vars })
    | none => Except.ok (m, sess)

/-- `BaseModel.save(self, sess, ckpt_dir=None, **kwargs)`:

    if ckpt_dir is None:
        ckpt_dir = self.config.ckpt_dir
        assert ckpt_dir is not None, "`ckpt_dir` is None!"
    self.saver.save(sess, ckpt_dir, self.global_step, **kwargs)

Returns the updated checkpoint store. -/
def BaseModel.save (m : BaseModel) (sess : Session) (store : CkptStore)
    (ckpt_dir : Option String) : Except PyErr CkptStore :=
  match resolveCkptDir m.config ckpt_dir with
  | Except.error e => Except.error e
  | Except.ok dir =>
    Except.ok (saverSave store dir ⟨sess.globalStepValue, sess.vars⟩)

/-- The base-class operations a constructed model offers on checkpoints. -/
inductive LifecycleOp
  | loadOp (ckpt_dir : Option String)
  | saveOp (ckpt_dir : Option String)
deriving DecidableEq, Repr

/-- A model together with the session and checkpoint store it acts on. -/
abbrev LifeState := BaseModel × Session × CkptStore

/-- Run one base-class operation, threading model, session and store. -/
def runOp (st : LifeState) (op : LifecycleOp) : Except PyErr LifeState :=
  match op with
  | LifecycleOp.loadOp d =>
    match st.1.load st.2.1 st.2.2 d with
    | Except.ok (m2, sess2) => Except.ok (m2, sess2, st.2.2)
    | Except.error e => Except.error e
  | LifecycleOp.saveOp d =>
    match st.1.save st.2.1 st.2.2 d with
    | Except.ok store2 => Except.ok (st.1, st.2.1, store2)
    | Except.error e => Except.error e

/-- Run a sequence of base-class operations; an exception aborts the run. -/
def runOps (st : LifeState) : List LifecycleOp → Except PyErr LifeState
  | [] => Except.ok st
  | op :: rest =>
    match runOp st op with
    | Except.ok st2 => runOps st2 rest
    | Except.error e => Except.error e

/-- A subclass `_init_graph` hook is well behaved when all it does to the
ambient framework state is append ops (leaving the default-graph stack as it
found it) and it raises nothing. -/
def AppendsOnly (hook : TFState → Except PyErr TFState) : Prop :=
  ∀ s, ∃ l, hook s = Except.ok { s with ops := s.ops ++ l }

/-- The trivial subclass hook: builds no op at all. -/
def trivialHook (s : TFState) : Except PyErr TFState :=
  Except.ok s

theorem trivialHook_appendsOnly : AppendsOnly trivialHook := by
  intro s
  refine ⟨[], ?_⟩
  rw [List.append_nil]
  rfl

/-- Sample fixtures used by the closed witness theorems. -/
def sampleModel : BaseModel :=
  { config := { ckpt_dir := none }, graph := 0, global_step := 0, saver := 1,
    init_op := 4, mode := ModeKeys.TRAIN }

def sampleSession : Session :=
  { vars := [("global_step", 5)] }

theorem lookup_saverSave_self (store : CkptStore) (dir : String) (c : Checkpoint) :
    (saverSave store dir c).lookup dir =
      some ((store.lookup dir).getD [] ++ [c]) := by
  induction store with
  | nil => simp [saverSave, List.lookup]
  | cons hd tl ih =>
    obtain ⟨d, cs⟩ := hd
    by_cases h : d = dir
    · subst h
      simp [saverSave, List.lookup]
    · have h2 : (dir == d) = false := by
        simp [Ne.symm h]
      simp [saverSave, h, List.lookup, h2, ih]

theorem latest_checkpoint_saverSave (store : CkptStore) (dir : String) (c : Checkpoint) :
    latest_checkpoint (saverSave store dir c) dir = some c := by
  rw [latest_checkpoint, lookup_saverSave_self]
  simp

/-- C3: for every model and session, if `load` resolves a checkpoint
directory and a latest checkpoint exists there, `load` restores all
saver-tracked variables from that checkpoint and then sets mode to RETRAIN. -/
theorem C3_load_found (m : BaseModel) (sess : Session) (store : CkptStore)
    (d : Option String) (dir : String) (ckpt : Checkpoint)
    (h1 : resolveCkptDir m.config d = Except.ok dir)
    (h2 : latest_checkpoint store dir = some ckpt) :
    m.load sess store d =
      Except.ok ({ m with mode := ModeKeys.RETRAIN }, { sess with vars := ckpt.vars }) := by
  simp [BaseModel.load, h1, h2]

theorem C3_load_found_witness :
    sampleModel.load sampleSession [("d", [⟨3, [("w", 9)]⟩])] (some "d") =
      Except.ok ({ sampleModel with mode := ModeKeys.RETRAIN },
                 { sampleSession with vars := [("w", 9)] }) :=
  C3_load_found sampleModel sampleSession [("d", [⟨3, [("w", 9)]⟩])] (some "d") "d"
    ⟨3, [("w", 9)]⟩ rfl rfl

theorem load_no_checkpoint_spec (m : BaseModel) (sess : Session) (store : CkptStore)
    (d : Option String) (dir : String)
    (h1 : resolveCkptDir m.config d = Except.ok dir)
    (h2 : latest_checkpoint store dir = none) :
    m.load sess store d = Except.ok (m, sess) := by
  simp [BaseModel.load, h1, h2]

/-- C4: a `load` whose directory resolves but holds no checkpoint leaves the
model and the session unchanged and returns normally (no exception). -/
theorem C4_load_no_checkpoint (m : BaseModel) (sess : Session) (store : CkptStore)
    (d : Option String) (dir : String)
    (h1 : resolveCkptDir m.config d = Except.ok dir)
    (h2 : latest_checkpoint store dir = none) :
    m.load sess store d = Except.ok (m, sess) :=
  load_no_checkpoint_spec m sess store d dir h1 h2

theorem C4_load_no_checkpoint_witness :
    sampleModel.load sampleSession [] (some "d") = Except.ok (sampleModel, sampleSession) :=
  C4_load_no_checkpoint sampleModel sampleSession [] (some "d") "d" rfl rfl

/-- C5: with the `ckpt_dir` argument absent and the configuration's
`ckpt_dir` also absent, both `load` and `save` raise the assertion error, and
(the error result carrying no store or session) no checkpoint I/O happens. -/
theorem C5_missing_ckpt_dir (m : BaseModel) (sess : Session) (store : CkptStore)
    (h : m.config.ckpt_dir = none) :
    m.load sess store none = Except.error (PyErr.assertionError "`ckpt_dir` is None!") ∧
    m.save sess store none = Except.error (PyErr.assertionError "`ckpt_dir` is None!") := by
  have hr : resolveCkptDir m.config none =
      Except.error (PyErr.assertionError "`ckpt_dir` is None!") := by
    simp [resolveCkptDir, h]
  exact ⟨by simp [BaseModel.load, hr], by simp [BaseModel.save, hr]⟩

theorem C5_missing_ckpt_dir_witness :
    sampleModel.load sampleSession [] none =
      Except.error (PyErr.assertionError "`ckpt_dir` is None!") ∧
    sampleModel.save sampleSession [] none =
      Except.error (PyErr.assertionError "`ckpt_dir` is None!") :=
  C5_missing_ckpt_dir sampleModel sampleSession [] rfl

/-- C6: every abstract hook of the base class — `_init_graph` (build graph),
`train`, `evaluate`, `predict` — raises `NotImplementedError` when invoked
without a subclass override. -/
theorem C6_unoverridden_hooks :
    (∀ s, BaseModel.init_graph s = Except.error PyErr.notImplementedError) ∧
    (∀ m sess dataset, BaseModel.train m sess dataset =
        Except.error PyErr.notImplementedError) ∧
    (∀ m sess dataset, BaseModel.evaluate m sess dataset =
        Except.error PyErr.notImplementedError) ∧
    (∀ m sess dataset, BaseModel.predict m sess dataset =
        Except.error PyErr.notImplementedError) :=
  ⟨fun _ => rfl, fun _ _ _ => rfl, fun _ _ _ => rfl, fun _ _ _ => rfl⟩

/-- C7: `save` resolves the checkpoint directory by exactly the rule `load`
uses (argument first, else configuration, else assertion error — the shared
`resolveCkptDir`), and on success appends to that directory a checkpoint
holding the current variable values tagged with the current global-step
value. -/
theorem C7_save_spec (m : BaseModel) (sess : Session) (store : CkptStore)
    (d : Option String) :
    (∀ dir, resolveCkptDir m.config d = Except.ok dir →
        m.save sess store d =
          Except.ok (saverSave store dir ⟨sess.globalStepValue, sess.vars⟩)) ∧
    (∀ e, resolveCkptDir m.config d = Except.error e →
        m.save sess store d = Except.error e ∧ m.load sess store d = Except.error e) := by
  constructor
  · intro dir h
    simp [BaseModel.save, h]
  · intro e h
    exact ⟨by simp [BaseModel.save, h], by simp [BaseModel.load, h]⟩

/-- C8: saving and then loading against the same checkpoint directory
restores variable values equal to the values that were saved. -/
theorem C8_round_trip (m : BaseModel) (sess : Session) (store : CkptStore) (dir : String)
    (store2 : CkptStore) (m2 : BaseModel) (sess2 : Session)
    (hsave : m.save sess store (some dir) = Except.ok store2)
    (hload : m.load sess store2 (some dir) = Except.ok (m2, sess2)) :
    sess2.vars = sess.vars := by
  have hr : resolveCkptDir m.config (some dir) = Except.ok dir := rfl
  simp only [BaseModel.save, hr, Except.ok.injEq] at hsave
  simp only [BaseModel.load, hr, ← hsave, latest_checkpoint_saverSave,
    Except.ok.injEq, Prod.mk.injEq] at hload
  rw [← hload.2]

theorem C8_round_trip_witness :
    sampleSession.vars = sampleSession.vars :=
  C8_round_trip sampleModel sampleSession [] "d"
    [("d", [⟨5, [("global_step", 5)]⟩])]
    { sampleModel with mode := ModeKeys.RETRAIN }
    sampleSession rfl rfl

/-- C10: when the `ckpt_dir` argument is supplied, neither `load` nor `save`
evaluates the fallback assertion: the call proceeds with that argument for
every model, in particular regardless of whether the configuration's
`ckpt_dir` is absent. -/
theorem C10_arg_skips_assert (m : BaseModel) (sess : Session) (store : CkptStore)
    (dir : String) :
    resolveCkptDir m.config (some dir) = Except.ok dir ∧
    m.load sess store (some dir) =
      (match latest_checkpoint store dir with
       | some ckpt =>
         Except.ok ({ m with mode := ModeKeys.RETRAIN }, { sess with vars := ckpt.vars })
       | none => Except.ok (m, sess)) ∧
    m.save sess store (some dir) =
      Except.ok (saverSave store dir ⟨sess.globalStepValue, sess.vars⟩) :=
  ⟨rfl, rfl, rfl⟩

theorem load_mode_cases (m : BaseModel) (sess : Session) (store : CkptStore)
    (d : Option String) (m2 : BaseModel) (sess2 : Session)
    (h : m.load sess store d = Except.ok (m2, sess2)) :
    m2.mode = m.mode ∨ m2.mode = ModeKeys.RETRAIN := by
  cases hr : resolveCkptDir m.config d with
  | error e => simp [BaseModel.load, hr] at h
  | ok dir =>
    cases hl : latest_checkpoint store dir with
    | none =>
      simp [BaseModel.load, hr, hl] at h
      left
      rw [← h.1]
    | some ckpt =>
      simp [BaseModel.load, hr, hl] at h
      right
      rw [← h.1]

theorem runOp_save_model (st : LifeState) (d : Option String) (r : LifeState)
    (h : runOp st (LifecycleOp.saveOp d) = Except.ok r) : r.1 = st.1 := by
  cases hs : st.1.save st.2.1 st.2.2 d with
  | ok store2 =>
    simp [runOp, hs] at h
    rw [← h]
  | error e => simp [runOp, hs] at h

theorem runOp_mode_cases (st : LifeState) (op : LifecycleOp) (r : LifeState)
    (h : runOp st op = Except.ok r) :
    r.1.mode = st.1.mode ∨ r.1.mode = ModeKeys.RETRAIN := by
  cases op with
  | saveOp d =>
    left
    rw [runOp_save_model st d r h]
  | loadOp d =>
    cases hl : st.1.load st.2.1 st.2.2 d with
    | error e => simp [runOp, hl] at h
    | ok p =>
      obtain ⟨m2, sess2⟩ := p
      simp [runOp, hl] at h
      have hm := load_mode_cases st.1 st.2.1 st.2.2 d m2 sess2 hl
      rw [← h]
      exact hm

theorem runOps_mode_inv (ops : List LifecycleOp) (st r : LifeState)
    (hinv : st.1.mode = ModeKeys.TRAIN ∨ st.1.mode = ModeKeys.RETRAIN)
    (h : runOps st ops = Except.ok r) :
    r.1.mode = ModeKeys.TRAIN ∨ r.1.mode = ModeKeys.RETRAIN := by
  induction ops generalizing st with
  | nil =>
    simp [runOps] at h
    rw [← h]
    exact hinv
  | cons op rest ih =>
    cases ho : runOp st op with
    | error e => simp [runOps, ho] at h
    | ok st2 =>
      simp only [runOps, ho] at h
      refine ih st2 ?_ h
      rcases runOp_mode_cases st op st2 ho with h1 | h1
      · rw [h1]
        exact hinv
      · right
        exact h1

/-- C2: mode is mutated only by construction (TRAIN, see the construction
theorem) and by a load that finds a checkpoint (RETRAIN): a save leaves mode
unchanged, a load that finds no checkpoint leaves the whole state unchanged,
and along any sequence of base-class operations started with mode TRAIN or
RETRAIN, mode stays in {TRAIN, RETRAIN}. -/
theorem C2_mode_invariant :
    (∀ (st : LifeState) (d : Option String) (r : LifeState),
        runOp st (LifecycleOp.saveOp d) = Except.ok r → r.1.mode = st.1.mode) ∧
    (∀ (st : LifeState) (d : Option String) (dir : String),
        resolveCkptDir st.1.config d = Except.ok dir →
        latest_checkpoint st.2.2 dir = none →
        runOp st (LifecycleOp.loadOp d) = Except.ok st) ∧
    (∀ (ops : List LifecycleOp) (st r : LifeState),
        st.1.mode = ModeKeys.TRAIN ∨ st.1.mode = ModeKeys.RETRAIN →
        runOps st ops = Except.ok r →
        r.1.mode = ModeKeys.TRAIN ∨ r.1.mode = ModeKeys.RETRAIN) := by
  refine ⟨?_, ?_, runOps_mode_inv⟩
  · intro st d r h
    rw [runOp_save_model st d r h]
  · intro st d dir h1 h2
    simp [runOp, load_no_checkpoint_spec st.1 st.2.1 st.2.2 d dir h1 h2]

theorem build_model_spec (hook : TFState → Except PyErr TFState) (h : AppendsOnly hook)
    (g : Nat) (s : TFState) :
    ∃ l, BaseModel.build_model hook g s =
      Except.ok (s.ops.length, s.ops.length + 1 + l.length,
        { defaultStack := s.defaultStack,
          ops := s.ops ++ [⟨g, OpKind.tfVariable "global_step" false 0⟩] ++ l
                 ++ [⟨g, OpKind.saver⟩] }) := by
  obtain ⟨l, hl⟩ := h { defaultStack := g :: s.defaultStack,
                        ops := s.ops ++ [⟨g, OpKind.tfVariable "global_step" false 0⟩] }
  refine ⟨l, ?_⟩
  simp [BaseModel.build_model, TFState.pushDefault, TFState.mkOp, TFState.getDefaultGraph,
    TFState.popDefault, hl, List.append_assoc]
  omega

theorem new_spec (hook : TFState → Except PyErr TFState) (h : AppendsOnly hook)
    (c : Config) (garg : Option Nat) (s : TFState) :
    ∃ l, BaseModel.new hook c garg s =
      Except.ok
        ({ config := c,
           graph := garg.getD s.getDefaultGraph,
           global_step := s.ops.length,
           saver := s.ops.length + 1 + l.length,
           init_op := s.ops.length + l.length + 4,
           mode := ModeKeys.TRAIN },
         { defaultStack := s.defaultStack,
           ops := s.ops
                  ++ [⟨garg.getD s.getDefaultGraph, OpKind.tfVariable "global_step" false 0⟩]
                  ++ l
                  ++ [⟨garg.getD s.getDefaultGraph, OpKind.saver⟩,
                      ⟨s.getDefaultGraph, OpKind.globalVariablesInitializer⟩,
                      ⟨s.getDefaultGraph, OpKind.localVariablesInitializer⟩,
                      ⟨s.getDefaultGraph,
                        OpKind.group [s.ops.length + l.length + 2, s.ops.length + l.length + 3]⟩] }) := by
  obtain ⟨l, hspec⟩ := build_model_spec hook h (garg.getD s.getDefaultGraph) s
  refine ⟨l, ?_⟩
  simp [TFState.getDefaultGraph] at hspec
  simp [BaseModel.new, hspec, TFState.mkOp, TFState.getDefaultGraph, List.append_assoc]
  omega

/-- C1: for every configuration, every optional graph argument and every well
behaved subclass hook, construction records the configuration and the graph
(the ambient default graph when none is supplied), then — inside the graph's
scope — creates the global-step variable, runs the core graph-definition hook
(its ops `l`), and creates the saver as the last op of the scope; after the
scope it builds the combined initialize-all-variables group (from the global
and local variable initializers), and finally the resulting model's mode is
TRAIN.  The op trace states the order; the ids are the trace indexes. -/
theorem C1_construction (hook : TFState → Except PyErr TFState) (h : AppendsOnly hook)
    (c : Config) (garg : Option Nat) (s : TFState) :
    ∃ l, BaseModel.new hook c garg s =
      Except.ok
        ({ config := c,
           graph := garg.getD s.getDefaultGraph,
           global_step := s.ops.length,
           saver := s.ops.length + 1 + l.length,
           init_op := s.ops.length + l.length + 4,
           mode := ModeKeys.TRAIN },
         { defaultStack := s.defaultStack,
           ops := s.ops
                  ++ [⟨garg.getD s.getDefaultGraph, OpKind.tfVariable "global_step" false 0⟩]
                  ++ l
                  ++ [⟨garg.getD s.getDefaultGraph, OpKind.saver⟩,
                      ⟨s.getDefaultGraph, OpKind.globalVariablesInitializer⟩,
                      ⟨s.getDefaultGraph, OpKind.localVariablesInitializer⟩,
                      ⟨s.getDefaultGraph,
                        OpKind.group [s.ops.length + l.length + 2, s.ops.length + l.length + 3]⟩] }) :=
  new_spec hook h c garg s

theorem C1_construction_witness :
    ∃ l, BaseModel.new trivialHook { ckpt_dir := some "ckpt" } none
        { defaultStack := [0], ops := [] } =
      Except.ok
        ({ config := { ckpt_dir := some "ckpt" },
           graph := 0,
           global_step := 0,
           saver := 1 + l.length,
           init_op := 0 + l.length + 4,
           mode := ModeKeys.TRAIN },
         { defaultStack := [0],
           ops := ⟨0, OpKind.tfVariable "global_step" false 0⟩
                  :: (l ++ [⟨0, OpKind.saver⟩,
                            ⟨0, OpKind.globalVariablesInitializer⟩,
                            ⟨0, OpKind.localVariablesInitializer⟩,
                            ⟨0, OpKind.group [0 + l.length + 2, 0 + l.length + 3]⟩]) }) :=
  C1_construction trivialHook trivialHook_appendsOnly { ckpt_dir := some "ckpt" } none
    { defaultStack := [0], ops := [] }

/-- C9: the combined initialization op is built after the
`with self.graph.as_default():` scope of `build_model` has been exited: when
the supplied graph is distinct from the ambient default graph, the op the
model's `init_op` id refers to is a group op created in the ambient default
graph, which is not the model's own graph. -/
theorem getElem?_at_append_length (pre : List Op) (x : Op) (n : Nat)
    (hn : n = pre.length) : (pre ++ [x])[n]? = some x := by
  subst hn
  exact List.getElem?_concat_length pre x

theorem C9_init_op_ambient (hook : TFState → Except PyErr TFState) (h : AppendsOnly hook)
    (c : Config) (g : Nat) (s : TFState) (hg : g ≠ s.getDefaultGraph) :
    ∃ m s2, BaseModel.new hook c (some g) s = Except.ok (m, s2) ∧
      m.graph = g ∧
      (∃ members, s2.ops[m.init_op]? =
        some ⟨s.getDefaultGraph, OpKind.group members⟩) ∧
      TFState.getDefaultGraph s ≠ m.graph := by
  obtain ⟨l, hspec⟩ := new_spec hook h c (some g) s
  refine ⟨_, _, hspec, rfl,
    ⟨[s.ops.length + l.length + 2, s.ops.length + l.length + 3], ?_⟩, Ne.symm hg⟩
  have e1 : s.ops
        ++ [⟨(some g).getD s.getDefaultGraph, OpKind.tfVariable "global_step" false 0⟩]
        ++ l
        ++ [⟨(some g).getD s.getDefaultGraph, OpKind.saver⟩,
            ⟨s.getDefaultGraph, OpKind.globalVariablesInitializer⟩,
            ⟨s.getDefaultGraph, OpKind.localVariablesInitializer⟩,
            ⟨s.getDefaultGraph,
              OpKind.group [s.ops.length + l.length + 2, s.ops.length + l.length + 3]⟩] =
      (s.ops
        ++ [⟨(some g).getD s.getDefaultGraph, OpKind.tfVariable "global_step" false 0⟩]
        ++ l
        ++ [⟨(some g).getD s.getDefaultGraph, OpKind.saver⟩,
            ⟨s.getDefaultGraph, OpKind.globalVariablesInitializer⟩,
            ⟨s.getDefaultGraph, OpKind.localVariablesInitializer⟩])
      ++ [⟨s.getDefaultGraph,
            OpKind.group [s.ops.length + l.length + 2, s.ops.length + l.length + 3]⟩] := by
    simp
  rw [e1]
  exact getElem?_at_append_length _ _ _ (by simp; omega)

theorem C9_init_op_ambient_witness :
    ∃ m s2, BaseModel.new trivialHook { ckpt_dir := some "ckpt" } (some 7)
        { defaultStack := [0], ops := [] } = Except.ok (m, s2) ∧
      m.graph = 7 ∧
      (∃ members, s2.ops[m.init_op]? = some ⟨0, OpKind.group members⟩) ∧
      (0 : Nat) ≠ m.graph :=
  C9_init_op_ambient trivialHook trivialHook_appendsOnly { ckpt_dir := some "ckpt" } 7
    { defaultStack := [0], ops := [] } (by decide)
